import Mathlib

/-!
Verification of the Solana staking lifecycle scripts.

The JavaScript sources are embedded shallowly:
the RPC connection becomes a record of pure response functions (an oracle),
key generation becomes a pure stream of keypairs supplied by the environment,
and every stage of the lifecycle returns an explicit result
(success value or propagated error) together with a trace of the
network-visible actions it performed, in order.  Fallible RPC calls
(airdrop, confirmation, send-and-confirm) return an Except value chosen by
the oracle; logging-only reads (balance, stake status) are thin wrappers
modelled as infallible lookups, matching their treatment in the design
document as external collaborators.
-/

namespace SolanaStaking

/-- A public key, carried as its raw byte sequence. -/
structure PublicKey where
  bytes : List Nat
deriving DecidableEq, Repr

/-- Stand-in for base58 decoding of a public-key string: an injective
encoding of the characters.  No verified property depends on the actual
base58 alphabet, only on the same decoding being used consistently. -/
def PublicKey.fromString (s : String) : PublicKey :=
  ⟨s.toList.map Char.toNat⟩

/-- A keypair; only the public half is observable in the embedding. -/
structure Keypair where
  publicKey : PublicKey
deriving DecidableEq, Repr

def LAMPORTS_PER_SOL : Nat := 1000000000

/-- Authorized record of a stake account: staker and withdrawer keys. -/
structure Authorized where
  staker : PublicKey
  withdrawer : PublicKey
deriving DecidableEq, Repr

/-- Lockup record: constructor argument order follows the library,
unix timestamp first, then epoch, then custodian. -/
structure Lockup where
  unixTimestamp : Int
  epoch : Nat
  custodian : PublicKey
deriving DecidableEq, Repr

/-- Parameters of StakeProgram.createAccount, as passed at part_000 lines 80 to 86. -/
structure CreateAccountParams where
  authorized : Authorized
  fromPubkey : PublicKey
  lamports : Nat
  lockup : Lockup
  stakePubkey : PublicKey
deriving DecidableEq, Repr

/-- Parameters of StakeProgram.delegate, part_000 lines 134 to 138. -/
structure DelegateParams where
  stakePubkey : PublicKey
  authorizedPubkey : PublicKey
  votePubkey : PublicKey
deriving DecidableEq, Repr

/-- Parameters of StakeProgram.deactivate, part_000 lines 169 to 172. -/
structure DeactivateParams where
  stakePubkey : PublicKey
  authorizedPubkey : PublicKey
deriving DecidableEq, Repr

/-- Parameters of StakeProgram.withdraw, part_000 lines 206 to 211. -/
structure WithdrawParams where
  stakePubkey : PublicKey
  authorizedPubkey : PublicKey
  toPubkey : PublicKey
  lamports : Nat
deriving DecidableEq, Repr

/-- A transaction built by one of the four StakeProgram builders. -/
inductive Transaction where
  | createAccount (p : CreateAccountParams)
  | delegate (p : DelegateParams)
  | deactivate (p : DeactivateParams)
  | withdraw (p : WithdrawParams)
deriving DecidableEq, Repr

namespace StakeProgram

/-- Byte size of a stake account record in the library. -/
def space : Nat := 200

def createAccount (p : CreateAccountParams) : Transaction := .createAccount p

def delegate (p : DelegateParams) : Transaction := .delegate p

def deactivate (p : DeactivateParams) : Transaction := .deactivate p

def withdraw (p : WithdrawParams) : Transaction := .withdraw p

end StakeProgram

/-- One entry of the vote-account listing; the vote public key arrives as a
base58 string from the RPC. -/
structure VoteAccountInfo where
  votePubkey : String
deriving DecidableEq, Repr

/-- Result of connection.getVoteAccounts. -/
structure VoteAccounts where
  current : List VoteAccountInfo
  delinquent : List VoteAccountInfo
deriving DecidableEq, Repr

/-- A program-owned account as returned by getProgramAccounts:
its address and its raw data bytes. -/
structure RpcAccount where
  pubkey : PublicKey
  data : List Nat
deriving DecidableEq, Repr

/-- Errors a run can raise: RPC call failures, confirmation failures,
the JavaScript TypeError from reading a field of undefined, and the
library error from constructing a PublicKey out of undefined. -/
inductive JsError where
  | rpc (msg : String)
  | confirmFailed (msg : String)
  | typeErrorUndefined (field : String)
  | invalidPublicKeyInput
deriving DecidableEq, Repr

/-- A getProgramAccounts filter, as built at part_000 lines 241 to 249. -/
inductive AccountFilter where
  | dataSize (n : Nat)
  | memcmp (offset : Nat) (bytes : List Nat)
deriving DecidableEq, Repr

/-- Modelled from the spec: the RPC node applies each filter to every
account owned by the queried program; dataSize keeps records of exactly
that byte length, memcmp keeps records whose bytes starting at the given
offset equal the supplied bytes exactly. -/
def matchesFilter (a : RpcAccount) : AccountFilter → Bool
  | .dataSize n => a.data.length == n
  | .memcmp offset bytes => (a.data.drop offset).take bytes.length == bytes

/-- The RPC oracle: one pure response per RPC surface point the scripts
consume.  Fallible submission and confirmation calls return Except. -/
structure Connection where
  getVoteAccounts : VoteAccounts
  getMinimumBalanceForRentExemption : Nat → Nat
  getBalance : PublicKey → Nat
  requestAirdrop : PublicKey → Nat → Except JsError String
  latestBlockhash : String × Nat
  confirmTransaction : String × Nat × String → Except JsError Unit
  sendAndConfirmTransaction : Transaction → List Keypair → Except JsError String
  programAccounts : PublicKey → List RpcAccount

/-- Modelled from the spec: getProgramAccounts returns the accounts owned
by the program that pass every supplied filter. -/
def Connection.getProgramAccounts (c : Connection) (programId : PublicKey)
    (filters : List AccountFilter) : List RpcAccount :=
  (c.programAccounts programId).filter (fun a => filters.all (matchesFilter a))

/-- The run environment: the connection plus the stream of keypairs that
successive Keypair.generate calls produce. -/
structure Env where
  conn : Connection
  keygen : Nat → Keypair

/-- Network-visible actions of a run, in the order they happen. -/
inductive Event where
  | airdropRequested (dest : PublicKey) (lamports : Nat)
  | blockhashFetched
  | txConfirmed (signature : String)
  | txBuilt (tx : Transaction)
  | txSubmitted (tx : Transaction) (txId : String)
  | balanceRead (key : PublicKey) (balance : Nat)
  | statusRead (key : PublicKey)
  | voteAccountsFetched
  | programAccountsQueried (programId : PublicKey) (filters : List AccountFilter)
      (result : List RpcAccount)
deriving DecidableEq, Repr

/-- Outcome of one lifecycle stage: the returned value or propagated error,
the keypair-stream position after the stage, and the trace of events. -/
structure StageOut (α : Type) where
  res : Except JsError α
  ctr : Nat
  events : List Event
deriving Repr

/-- utils.requestAirdrop: forwards to the connection, scaling the amount
from SOL to lamports. -/
def requestAirdrop (connection : Connection) (walletPublicKey : PublicKey)
    (amount : Nat) : Except JsError String :=
  connection.requestAirdrop walletPublicKey (amount * LAMPORTS_PER_SOL)

/-- The {wallet, stakeAccount} pair returned by createStakeAccount. -/
structure Keys where
  wallet : Keypair
  stakeAccount : Keypair
deriving DecidableEq, Repr

/-- The object returned by delegateStake and the later stages:
the create-stage keys extended with the selected validator key. -/
structure KeysWithValidator where
  wallet : Keypair
  stakeAccount : Keypair
  selectedValidatorPublicKey : PublicKey
deriving DecidableEq, Repr

/-- createStakeAccount, part_000 lines 51 to 99: generate a wallet,
airdrop one SOL and confirm it, generate the stake account, compute the
amount as rent-exemption minimum plus half a SOL, build the create
transaction, send and confirm it, then log balance and status. -/
def createStakeAccount (env : Env) (ctr : Nat) : StageOut Keys :=
  let wallet := env.keygen ctr
  let walletPublicKey := wallet.publicKey
  let ev0 := [Event.airdropRequested walletPublicKey (1 * LAMPORTS_PER_SOL)]
  match requestAirdrop env.conn walletPublicKey 1 with
  | .error e => ⟨.error e, ctr + 1, ev0⟩
  | .ok airdropSignature =>
    let blockhash := env.conn.latestBlockhash.1
    let lastValidBlockHeight := env.conn.latestBlockhash.2
    let ev1 := ev0 ++ [Event.blockhashFetched]
    match env.conn.confirmTransaction (blockhash, lastValidBlockHeight, airdropSignature) with
    | .error e => ⟨.error e, ctr + 1, ev1⟩
    | .ok _ =>
      let ev2 := ev1 ++ [Event.txConfirmed airdropSignature]
      let stakeAccount := env.keygen (ctr + 1)
      let stakeAccountPublicKey := stakeAccount.publicKey
      let minimumRent := env.conn.getMinimumBalanceForRentExemption StakeProgram.space
      let amountUserWantsToStake := LAMPORTS_PER_SOL / 2
      let amountToStake := minimumRent + amountUserWantsToStake
      let createStakeAccountTx := StakeProgram.createAccount
        { authorized := ⟨walletPublicKey, walletPublicKey⟩
          fromPubkey := walletPublicKey
          lamports := amountToStake
          lockup := ⟨0, 0, walletPublicKey⟩
          stakePubkey := stakeAccountPublicKey }
      let ev3 := ev2 ++ [Event.txBuilt createStakeAccountTx]
      match env.conn.sendAndConfirmTransaction createStakeAccountTx [wallet, stakeAccount] with
      | .error e => ⟨.error e, ctr + 2, ev3⟩
      | .ok txId =>
        let ev4 := ev3 ++ [Event.txSubmitted createStakeAccountTx txId]
        let ev5 := ev4 ++
          [Event.balanceRead stakeAccountPublicKey (env.conn.getBalance stakeAccountPublicKey)]
        let ev6 := ev5 ++ [Event.statusRead stakeAccountPublicKey]
        ⟨.ok ⟨wallet, stakeAccount⟩, ctr + 2, ev6⟩

/-- delegateStake, part_000 lines 113 to 150: run createStakeAccount in
full, fetch the vote accounts, take the first entry of the current list
(reading its votePubkey field throws the JavaScript TypeError when the
list is empty and the index yields undefined), build the delegate
transaction, send and confirm it, log the status, and return the spread
of the create result extended with the selected validator key. -/
def delegateStake (env : Env) (ctr : Nat) : StageOut KeysWithValidator :=
  let c := createStakeAccount env ctr
  match c.res with
  | .error e => ⟨.error e, c.ctr, c.events⟩
  | .ok createStakeAccountResult =>
    let walletPublicKey := createStakeAccountResult.wallet.publicKey
    let stakeAccountPublicKey := createStakeAccountResult.stakeAccount.publicKey
    let validators := env.conn.getVoteAccounts
    let ev0 := c.events ++ [Event.voteAccountsFetched]
    match validators.current.head? with
    | none => ⟨.error (.typeErrorUndefined "votePubkey"), c.ctr, ev0⟩
    | some selectedValidator =>
      let selectedValidatorPublicKey := PublicKey.fromString selectedValidator.votePubkey
      let delegateTx := StakeProgram.delegate
        { stakePubkey := stakeAccountPublicKey
          authorizedPubkey := walletPublicKey
          votePubkey := selectedValidatorPublicKey }
      let ev1 := ev0 ++ [Event.txBuilt delegateTx]
      match env.conn.sendAndConfirmTransaction delegateTx [createStakeAccountResult.wallet] with
      | .error e => ⟨.error e, c.ctr, ev1⟩
      | .ok txId =>
        let ev2 := ev1 ++ [Event.txSubmitted delegateTx txId,
          Event.statusRead stakeAccountPublicKey]
        ⟨.ok ⟨createStakeAccountResult.wallet, createStakeAccountResult.stakeAccount,
          selectedValidatorPublicKey⟩, c.ctr, ev2⟩

/-- deactivateStake, part_000 lines 157 to 184: run delegateStake in full,
build the deactivate transaction, send and confirm it, log the status,
and return the delegate result unchanged. -/
def deactivateStake (env : Env) (ctr : Nat) : StageOut KeysWithValidator :=
  let d := delegateStake env ctr
  match d.res with
  | .error e => ⟨.error e, d.ctr, d.events⟩
  | .ok delegateStakeResult =>
    let walletPublicKey := delegateStakeResult.wallet.publicKey
    let stakeAccountPublicKey := delegateStakeResult.stakeAccount.publicKey
    let deactivateTx := StakeProgram.deactivate
      { stakePubkey := stakeAccountPublicKey
        authorizedPubkey := walletPublicKey }
    let ev1 := d.events ++ [Event.txBuilt deactivateTx]
    match env.conn.sendAndConfirmTransaction deactivateTx [delegateStakeResult.wallet] with
    | .error e => ⟨.error e, d.ctr, ev1⟩
    | .ok txId =>
      let ev2 := ev1 ++ [Event.txSubmitted deactivateTx txId,
        Event.statusRead stakeAccountPublicKey]
      ⟨.ok delegateStakeResult, d.ctr, ev2⟩

/-- withdrawStake, part_000 lines 191 to 221: run deactivateStake in full,
read the current stake-account balance from the connection, build the
withdraw transaction for exactly that balance, send and confirm it, log
the final balance, and return the deactivate result unchanged. -/
def withdrawStake (env : Env) (ctr : Nat) : StageOut KeysWithValidator :=
  let d := deactivateStake env ctr
  match d.res with
  | .error e => ⟨.error e, d.ctr, d.events⟩
  | .ok deactivateStakeResult =>
    let walletPublicKey := deactivateStakeResult.wallet.publicKey
    let stakeAccountPublicKey := deactivateStakeResult.stakeAccount.publicKey
    let stakeBalance := env.conn.getBalance stakeAccountPublicKey
    let ev0 := d.events ++ [Event.balanceRead stakeAccountPublicKey stakeBalance]
    let withdrawTx := StakeProgram.withdraw
      { stakePubkey := stakeAccountPublicKey
        authorizedPubkey := walletPublicKey
        toPubkey := walletPublicKey
        lamports := stakeBalance }
    let ev1 := ev0 ++ [Event.txBuilt withdrawTx]
    match env.conn.sendAndConfirmTransaction withdrawTx [deactivateStakeResult.wallet] with
    | .error e => ⟨.error e, d.ctr, ev1⟩
    | .ok txId =>
      let ev2 := ev1 ++ [Event.txSubmitted withdrawTx txId,
        Event.balanceRead stakeAccountPublicKey (env.conn.getBalance stakeAccountPublicKey)]
      ⟨.ok deactivateStakeResult, d.ctr, ev2⟩

/-- The value the library PublicKey constructor receives in the scanner:
undefined when the entry flow passes no argument, an already constructed
key when the combined flow passes one, or a base58 string. -/
inductive PubkeyInput where
  | undefinedArg
  | str (s : String)
  | key (k : PublicKey)
deriving DecidableEq, Repr

/-- The library PublicKey constructor: building a key out of undefined
throws; a string is decoded; an existing key is copied. -/
def PublicKey.fromInput : PubkeyInput → Except JsError PublicKey
  | .undefinedArg => .error .invalidPublicKeyInput
  | .str s => .ok (PublicKey.fromString s)
  | .key k => .ok k

/-- The stake program id constant of part_000 lines 234 to 236. -/
def STAKE_PROGRAM_ID : PublicKey :=
  PublicKey.fromString "Stake11111111111111111111111111111111111111"

/-- The filters built at part_000 lines 241 to 249 for a given vote key. -/
def scanFilters (votePubKey : PublicKey) : List AccountFilter :=
  [.dataSize 200, .memcmp 124 votePubKey.bytes]

/-- What getDelegatorsByValidator reports: the matched accounts, the
logged count, and the sample record logged when the list is nonempty. -/
structure ScanReport where
  accounts : List RpcAccount
  count : Nat
  sample : Option RpcAccount
deriving DecidableEq, Repr

/-- Outcome of the scanner: report or propagated error, plus trace. -/
structure ScanOut where
  res : Except JsError ScanReport
  events : List Event
deriving Repr

/-- getDelegatorsByValidator, part_000 lines 228 to 259: construct the
vote public key from the argument (throwing before any query when the
argument is undefined), query the stake program accounts with the
dataSize 200 and offset 124 memcmp filters, log the count, and log the
first match when there is one. -/
def getDelegatorsByValidator (connection : Connection)
    (validatorPublicKey : PubkeyInput) : ScanOut :=
  match PublicKey.fromInput validatorPublicKey with
  | .error e => ⟨.error e, []⟩
  | .ok votePubKey =>
    let filters := scanFilters votePubKey
    let accounts := connection.getProgramAccounts STAKE_PROGRAM_ID filters
    ⟨.ok ⟨accounts, accounts.length, accounts.head?⟩,
      [Event.programAccountsQueried STAKE_PROGRAM_ID filters accounts]⟩

/-- Outcome of an entry flow: the run either completes, or its catch-all
boundary logs the raised error. -/
inductive RunOutcome (α : Type) where
  | completed (a : α)
  | loggedError (e : JsError)
deriving DecidableEq, Repr

/-- main of src/mains/get_delegators_by_validator.js lines 4 to 7: the
scanner is invoked with no validator argument, so its key parameter is
undefined. -/
def mainGetDelegatorsByValidator (connection : Connection) : ScanOut :=
  getDelegatorsByValidator connection .undefinedArg

/-- runMain of src/mains/get_delegators_by_validator.js: the catch-all
boundary around main that logs any raised error. -/
def runMainGetDelegatorsByValidator (connection : Connection) : RunOutcome ScanReport :=
  match (mainGetDelegatorsByValidator connection).res with
  | .ok r => .completed r
  | .error e => .loggedError e

/-- Which of the four lifecycle builders produced a transaction. -/
inductive TxKind where
  | create
  | delegate
  | deactivate
  | withdraw
deriving DecidableEq, Repr

def Transaction.kind : Transaction → TxKind
  | .createAccount _ => .create
  | .delegate _ => .delegate
  | .deactivate _ => .deactivate
  | .withdraw _ => .withdraw

/-- A lifecycle mark: a stage transaction getting built or submitted. -/
inductive Mark where
  | built (k : TxKind)
  | submitted (k : TxKind)
deriving DecidableEq, Repr

/-- The lifecycle marks of a trace: the build and submission events in
order, abstracted to the kind of stage transaction involved. -/
def lifecycleMarks (events : List Event) : List Mark :=
  events.filterMap fun e =>
    match e with
    | .txBuilt tx => some (.built tx.kind)
    | .txSubmitted tx _ => some (.submitted tx.kind)
    | _ => none

/-- The full lifecycle mark sequence of a successful withdraw run. -/
def fullLifecycleMarks : List Mark :=
  [.built .create, .submitted .create, .built .delegate, .submitted .delegate,
   .built .deactivate, .submitted .deactivate, .built .withdraw, .submitted .withdraw]

/-- A concrete oracle on which every RPC call succeeds: one active
validator, fixed rent minimum and balances, and every submission
confirmed. Used to witness the happy-path theorems. -/
def happyConn : Connection where
  getVoteAccounts := ⟨[⟨"v1"⟩], []⟩
  getMinimumBalanceForRentExemption := fun _ => 2282880
  getBalance := fun _ => 502282880
  requestAirdrop := fun _ _ => .ok "sigAirdrop"
  latestBlockhash := ("hash1", 100)
  confirmTransaction := fun _ => .ok ()
  sendAndConfirmTransaction := fun tx _ =>
    match tx with
    | .createAccount _ => .ok "txCreate"
    | .delegate _ => .ok "txDelegate"
    | .deactivate _ => .ok "txDeactivate"
    | .withdraw _ => .ok "txWithdraw"
  programAccounts := fun _ => []

/-- The keypair stream used in concrete runs: key n has byte list [n]. -/
def testKeygen : Nat → Keypair := fun n => ⟨⟨[n]⟩⟩

def happyEnv : Env := ⟨happyConn, testKeygen⟩

/-- A concrete oracle whose airdrop call fails, so the create stage fails
at its first network interaction. -/
def airdropFailConn : Connection :=
  { happyConn with requestAirdrop := fun _ _ => .error (.rpc "airdrop refused") }

def airdropFailEnv : Env := ⟨airdropFailConn, testKeygen⟩

/-- A concrete oracle on which creation succeeds but the vote-account
listing has an empty current list. -/
def noValidatorsConn : Connection :=
  { happyConn with getVoteAccounts := ⟨[], []⟩ }

def noValidatorsEnv : Env := ⟨noValidatorsConn, testKeygen⟩

/-- An account matching the scanner filters: 200 bytes, with the queried
key bytes at offset 124. -/
def scanAcct : RpcAccount :=
  ⟨⟨[99]⟩, List.replicate 124 0 ++ [7, 9] ++ List.replicate 74 1⟩

/-- A concrete oracle whose stake program owns exactly one account. -/
def scanConn : Connection :=
  { happyConn with programAccounts := fun _ => [scanAcct] }

/-- Whether an Except value is a success. -/
def exceptOk {α : Type} : Except JsError α → Bool
  | .ok _ => true
  | .error _ => false

theorem builtCreate_inv (env : Env) (ctr : Nat) (p : CreateAccountParams)
    (h : Event.txBuilt (.createAccount p) ∈ (createStakeAccount env ctr).events) :
    p = ⟨⟨(env.keygen ctr).publicKey, (env.keygen ctr).publicKey⟩,
      (env.keygen ctr).publicKey,
      env.conn.getMinimumBalanceForRentExemption StakeProgram.space + LAMPORTS_PER_SOL / 2,
      ⟨0, 0, (env.keygen ctr).publicKey⟩,
      (env.keygen (ctr + 1)).publicKey⟩ := by
  cases ha : requestAirdrop env.conn (env.keygen ctr).publicKey 1 with
  | error e => simp [createStakeAccount, ha] at h
  | ok sig =>
    cases hc : env.conn.confirmTransaction
        (env.conn.latestBlockhash.1, env.conn.latestBlockhash.2, sig) with
    | error e => simp [createStakeAccount, ha, hc] at h
    | ok u =>
      cases hs : env.conn.sendAndConfirmTransaction
          (Transaction.createAccount
            ⟨⟨(env.keygen ctr).publicKey, (env.keygen ctr).publicKey⟩,
              (env.keygen ctr).publicKey,
              env.conn.getMinimumBalanceForRentExemption StakeProgram.space +
                LAMPORTS_PER_SOL / 2,
              ⟨0, 0, (env.keygen ctr).publicKey⟩,
              (env.keygen (ctr + 1)).publicKey⟩)
          [env.keygen ctr, env.keygen (ctr + 1)] with
      | error e =>
        simp [createStakeAccount, ha, hc, hs, StakeProgram.createAccount] at h
        exact h
      | ok txId =>
        simp [createStakeAccount, ha, hc, hs, StakeProgram.createAccount] at h
        exact h

theorem delegate_of_create_error (env : Env) (ctr : Nat) (e : JsError)
    (h : (createStakeAccount env ctr).res = .error e) :
    delegateStake env ctr =
      ⟨.error e, (createStakeAccount env ctr).ctr, (createStakeAccount env ctr).events⟩ := by
  simp [delegateStake, h]

theorem deactivate_of_delegate_error (env : Env) (ctr : Nat) (e : JsError)
    (h : (delegateStake env ctr).res = .error e) :
    deactivateStake env ctr =
      ⟨.error e, (delegateStake env ctr).ctr, (delegateStake env ctr).events⟩ := by
  simp [deactivateStake, h]

theorem withdraw_of_deactivate_error (env : Env) (ctr : Nat) (e : JsError)
    (h : (deactivateStake env ctr).res = .error e) :
    withdrawStake env ctr =
      ⟨.error e, (deactivateStake env ctr).ctr, (deactivateStake env ctr).events⟩ := by
  simp [withdrawStake, h]

theorem delegate_ok_shape (env : Env) (ctr : Nat) (v : KeysWithValidator)
    (h : (delegateStake env ctr).res = .ok v) :
    (createStakeAccount env ctr).res = .ok ⟨v.wallet, v.stakeAccount⟩ ∧
    ∃ w txId, env.conn.getVoteAccounts.current.head? = some w ∧
      v.selectedValidatorPublicKey = PublicKey.fromString w.votePubkey ∧
      (delegateStake env ctr).events = (createStakeAccount env ctr).events ++
        [.voteAccountsFetched,
         .txBuilt (.delegate ⟨v.stakeAccount.publicKey, v.wallet.publicKey,
           v.selectedValidatorPublicKey⟩),
         .txSubmitted (.delegate ⟨v.stakeAccount.publicKey, v.wallet.publicKey,
           v.selectedValidatorPublicKey⟩) txId,
         .statusRead v.stakeAccount.publicKey] := by
  cases hc : (createStakeAccount env ctr).res with
  | error e => simp [delegateStake, hc] at h
  | ok k =>
    cases hv : env.conn.getVoteAccounts.current.head? with
    | none => simp [delegateStake, hc, hv] at h
    | some w =>
      cases hs : env.conn.sendAndConfirmTransaction
          (Transaction.delegate ⟨k.stakeAccount.publicKey, k.wallet.publicKey,
            PublicKey.fromString w.votePubkey⟩) [k.wallet] with
      | error e => simp [delegateStake, hc, hv, hs, StakeProgram.delegate] at h
      | ok txId =>
        simp [delegateStake, hc, hv, hs, StakeProgram.delegate] at h
        subst h
        exact ⟨rfl, w, txId, rfl, rfl, by
          simp [delegateStake, hc, hv, hs, StakeProgram.delegate]⟩

theorem deactivate_ok_shape (env : Env) (ctr : Nat) (v : KeysWithValidator)
    (h : (deactivateStake env ctr).res = .ok v) :
    (delegateStake env ctr).res = .ok v ∧
    ∃ txId,
      (deactivateStake env ctr).events = (delegateStake env ctr).events ++
        [.txBuilt (.deactivate ⟨v.stakeAccount.publicKey, v.wallet.publicKey⟩),
         .txSubmitted (.deactivate ⟨v.stakeAccount.publicKey, v.wallet.publicKey⟩) txId,
         .statusRead v.stakeAccount.publicKey] := by
  cases hd : (delegateStake env ctr).res with
  | error e => simp [deactivateStake, hd] at h
  | ok r =>
    cases hs : env.conn.sendAndConfirmTransaction
        (Transaction.deactivate ⟨r.stakeAccount.publicKey, r.wallet.publicKey⟩)
        [r.wallet] with
    | error e => simp [deactivateStake, hd, hs, StakeProgram.deactivate] at h
    | ok txId =>
      simp [deactivateStake, hd, hs, StakeProgram.deactivate] at h
      subst h
      exact ⟨rfl, txId, by simp [deactivateStake, hd, hs, StakeProgram.deactivate]⟩

theorem withdraw_ok_shape (env : Env) (ctr : Nat) (v : KeysWithValidator)
    (h : (withdrawStake env ctr).res = .ok v) :
    (deactivateStake env ctr).res = .ok v ∧
    ∃ txId,
      (withdrawStake env ctr).events = (deactivateStake env ctr).events ++
        [.balanceRead v.stakeAccount.publicKey
           (env.conn.getBalance v.stakeAccount.publicKey),
         .txBuilt (.withdraw ⟨v.stakeAccount.publicKey, v.wallet.publicKey,
           v.wallet.publicKey, env.conn.getBalance v.stakeAccount.publicKey⟩),
         .txSubmitted (.withdraw ⟨v.stakeAccount.publicKey, v.wallet.publicKey,
           v.wallet.publicKey, env.conn.getBalance v.stakeAccount.publicKey⟩) txId,
         .balanceRead v.stakeAccount.publicKey
           (env.conn.getBalance v.stakeAccount.publicKey)] := by
  cases hd : (deactivateStake env ctr).res with
  | error e => simp [withdrawStake, hd] at h
  | ok r =>
    cases hs : env.conn.sendAndConfirmTransaction
        (Transaction.withdraw ⟨r.stakeAccount.publicKey, r.wallet.publicKey,
          r.wallet.publicKey, env.conn.getBalance r.stakeAccount.publicKey⟩)
        [r.wallet] with
    | error e => simp [withdrawStake, hd, hs, StakeProgram.withdraw] at h
    | ok txId =>
      simp [withdrawStake, hd, hs, StakeProgram.withdraw] at h
      subst h
      exact ⟨rfl, txId, by simp [withdrawStake, hd, hs, StakeProgram.withdraw]⟩

theorem lifecycleMarks_append (a b : List Event) :
    lifecycleMarks (a ++ b) = lifecycleMarks a ++ lifecycleMarks b := by
  simp [lifecycleMarks, List.filterMap_append]

theorem create_marks_le (env : Env) (ctr : Nat) :
    ∃ n, n ≤ 2 ∧
      lifecycleMarks (createStakeAccount env ctr).events = fullLifecycleMarks.take n ∧
      (exceptOk (createStakeAccount env ctr).res = true → n = 2) := by
  cases ha : requestAirdrop env.conn (env.keygen ctr).publicKey 1 with
  | error e =>
    refine ⟨0, by omega, ?_, ?_⟩
    · simp [createStakeAccount, ha, lifecycleMarks, fullLifecycleMarks]
    · simp [createStakeAccount, ha, exceptOk]
  | ok sig =>
    cases hc : env.conn.confirmTransaction
        (env.conn.latestBlockhash.1, env.conn.latestBlockhash.2, sig) with
    | error e =>
      refine ⟨0, by omega, ?_, ?_⟩
      · simp [createStakeAccount, ha, hc, lifecycleMarks, fullLifecycleMarks]
      · simp [createStakeAccount, ha, hc, exceptOk]
    | ok u =>
      cases hs : env.conn.sendAndConfirmTransaction
          (Transaction.createAccount
            ⟨⟨(env.keygen ctr).publicKey, (env.keygen ctr).publicKey⟩,
              (env.keygen ctr).publicKey,
              env.conn.getMinimumBalanceForRentExemption StakeProgram.space +
                LAMPORTS_PER_SOL / 2,
              ⟨0, 0, (env.keygen ctr).publicKey⟩,
              (env.keygen (ctr + 1)).publicKey⟩)
          [env.keygen ctr, env.keygen (ctr + 1)] with
      | error e =>
        refine ⟨1, by omega, ?_, ?_⟩
        · simp [createStakeAccount, ha, hc, hs, StakeProgram.createAccount,
            lifecycleMarks, fullLifecycleMarks, Transaction.kind]
        · simp [createStakeAccount, ha, hc, hs, StakeProgram.createAccount, exceptOk]
      | ok txId =>
        refine ⟨2, by omega, ?_, fun _ => rfl⟩
        simp [createStakeAccount, ha, hc, hs, StakeProgram.createAccount,
          lifecycleMarks, fullLifecycleMarks, Transaction.kind]

theorem delegate_marks_le (env : Env) (ctr : Nat) :
    ∃ n, n ≤ 4 ∧
      lifecycleMarks (delegateStake env ctr).events = fullLifecycleMarks.take n ∧
      (exceptOk (delegateStake env ctr).res = true → n = 4) := by
  obtain ⟨n, hn, hm, hfull⟩ := create_marks_le env ctr
  cases hc : (createStakeAccount env ctr).res with
  | error e =>
    have hprop := delegate_of_create_error env ctr e hc
    refine ⟨n, by omega, ?_, ?_⟩
    · rw [hprop]; exact hm
    · rw [hprop]; simp [exceptOk]
  | ok k =>
    have hn2 : n = 2 := hfull (by simp [hc, exceptOk])
    subst hn2
    cases hv : env.conn.getVoteAccounts.current.head? with
    | none =>
      refine ⟨2, by omega, ?_, ?_⟩
      · simp only [delegateStake, hc]
        simp [hv, lifecycleMarks_append, hm]
        simp [lifecycleMarks]
      · simp [delegateStake, hc, hv, exceptOk]
    | some w =>
      cases hs : env.conn.sendAndConfirmTransaction
          (Transaction.delegate ⟨k.stakeAccount.publicKey, k.wallet.publicKey,
            PublicKey.fromString w.votePubkey⟩) [k.wallet] with
      | error e =>
        refine ⟨3, by omega, ?_, ?_⟩
        · simp only [delegateStake, hc]
          simp [hv, hs, StakeProgram.delegate, lifecycleMarks_append, hm]
          simp [lifecycleMarks, fullLifecycleMarks, Transaction.kind]
        · simp [delegateStake, hc, hv, hs, StakeProgram.delegate, exceptOk]
      | ok txId =>
        refine ⟨4, by omega, ?_, fun _ => rfl⟩
        simp only [delegateStake, hc]
        simp [hv, hs, StakeProgram.delegate, lifecycleMarks_append, hm]
        simp [lifecycleMarks, fullLifecycleMarks, Transaction.kind]

theorem deactivate_marks_le (env : Env) (ctr : Nat) :
    ∃ n, n ≤ 6 ∧
      lifecycleMarks (deactivateStake env ctr).events = fullLifecycleMarks.take n ∧
      (exceptOk (deactivateStake env ctr).res = true → n = 6) := by
  obtain ⟨n, hn, hm, hfull⟩ := delegate_marks_le env ctr
  cases hd : (delegateStake env ctr).res with
  | error e =>
    have hprop := deactivate_of_delegate_error env ctr e hd
    refine ⟨n, by omega, ?_, ?_⟩
    · rw [hprop]; exact hm
    · rw [hprop]; simp [exceptOk]
  | ok r =>
    have hn4 : n = 4 := hfull (by simp [hd, exceptOk])
    subst hn4
    cases hs : env.conn.sendAndConfirmTransaction
        (Transaction.deactivate ⟨r.stakeAccount.publicKey, r.wallet.publicKey⟩)
        [r.wallet] with
    | error e =>
      refine ⟨5, by omega, ?_, ?_⟩
      · simp only [deactivateStake, hd]
        simp [hs, StakeProgram.deactivate, lifecycleMarks_append, hm]
        simp [lifecycleMarks, fullLifecycleMarks, Transaction.kind]
      · simp [deactivateStake, hd, hs, StakeProgram.deactivate, exceptOk]
    | ok txId =>
      refine ⟨6, by omega, ?_, fun _ => rfl⟩
      simp only [deactivateStake, hd]
      simp [hs, StakeProgram.deactivate, lifecycleMarks_append, hm]
      simp [lifecycleMarks, fullLifecycleMarks, Transaction.kind]

theorem withdraw_marks_le (env : Env) (ctr : Nat) :
    ∃ n, n ≤ 8 ∧
      lifecycleMarks (withdrawStake env ctr).events = fullLifecycleMarks.take n ∧
      (exceptOk (withdrawStake env ctr).res = true → n = 8) := by
  obtain ⟨n, hn, hm, hfull⟩ := deactivate_marks_le env ctr
  cases hd : (deactivateStake env ctr).res with
  | error e =>
    have hprop := withdraw_of_deactivate_error env ctr e hd
    refine ⟨n, by omega, ?_, ?_⟩
    · rw [hprop]; exact hm
    · rw [hprop]; simp [exceptOk]
  | ok r =>
    have hn6 : n = 6 := hfull (by simp [hd, exceptOk])
    subst hn6
    cases hs : env.conn.sendAndConfirmTransaction
        (Transaction.withdraw ⟨r.stakeAccount.publicKey, r.wallet.publicKey,
          r.wallet.publicKey, env.conn.getBalance r.stakeAccount.publicKey⟩)
        [r.wallet] with
    | error e =>
      refine ⟨7, by omega, ?_, ?_⟩
      · simp only [withdrawStake, hd]
        simp [hs, StakeProgram.withdraw, lifecycleMarks_append, hm]
        simp [lifecycleMarks, fullLifecycleMarks, Transaction.kind]
      · simp [withdrawStake, hd, hs, StakeProgram.withdraw, exceptOk]
    | ok txId =>
      refine ⟨8, by omega, ?_, fun _ => rfl⟩
      simp only [withdrawStake, hd]
      simp [hs, StakeProgram.withdraw, lifecycleMarks_append, hm]
      simp [lifecycleMarks, fullLifecycleMarks, Transaction.kind]

/-- Claim C1: in every run of stake-account creation, the create-account
instruction is built with the wallet public key as both the authorized
stake key and the authorized withdraw key, and with a lockup whose epoch
is zero, whose unix timestamp is zero, and whose custodian is the wallet
public key. -/
theorem claim_C1 (env : Env) (ctr : Nat) (p : CreateAccountParams)
    (h : Event.txBuilt (.createAccount p) ∈ (createStakeAccount env ctr).events) :
    p.authorized = ⟨(env.keygen ctr).publicKey, (env.keygen ctr).publicKey⟩ ∧
    p.lockup = ⟨0, 0, (env.keygen ctr).publicKey⟩ ∧
    p.fromPubkey = (env.keygen ctr).publicKey := by
  have hp := builtCreate_inv env ctr p h
  subst hp
  exact ⟨rfl, rfl, rfl⟩

theorem claim_C1_witness :
    Event.txBuilt (.createAccount ⟨⟨⟨[0]⟩, ⟨[0]⟩⟩, ⟨[0]⟩, 502282880, ⟨0, 0, ⟨[0]⟩⟩, ⟨[1]⟩⟩)
        ∈ (createStakeAccount happyEnv 0).events ∧
      ((⟨⟨⟨[0]⟩, ⟨[0]⟩⟩, ⟨[0]⟩, 502282880, ⟨0, 0, ⟨[0]⟩⟩, ⟨[1]⟩⟩ :
          CreateAccountParams).authorized = ⟨⟨[0]⟩, ⟨[0]⟩⟩ ∧
        (⟨⟨⟨[0]⟩, ⟨[0]⟩⟩, ⟨[0]⟩, 502282880, ⟨0, 0, ⟨[0]⟩⟩, ⟨[1]⟩⟩ :
          CreateAccountParams).lockup = ⟨0, 0, ⟨[0]⟩⟩ ∧
        (⟨⟨⟨[0]⟩, ⟨[0]⟩⟩, ⟨[0]⟩, 502282880, ⟨0, 0, ⟨[0]⟩⟩, ⟨[1]⟩⟩ :
          CreateAccountParams).fromPubkey = ⟨[0]⟩) :=
  ⟨by decide, claim_C1 happyEnv 0 _ (by decide)⟩

/-- Claim C2: in every run of stake-account creation, the lamports placed
in the new stake account equal the network-reported rent-exemption
minimum for the stake-account byte size plus half of LAMPORTS_PER_SOL,
which is 500000000 lamports; the rent-exemption term is never omitted and
the amount is never below the rent-exemption minimum. -/
theorem claim_C2 (env : Env) (ctr : Nat) (p : CreateAccountParams)
    (h : Event.txBuilt (.createAccount p) ∈ (createStakeAccount env ctr).events) :
    p.lamports = env.conn.getMinimumBalanceForRentExemption StakeProgram.space +
      LAMPORTS_PER_SOL / 2 ∧
    LAMPORTS_PER_SOL / 2 = 500000000 ∧
    env.conn.getMinimumBalanceForRentExemption StakeProgram.space ≤ p.lamports := by
  have hp := builtCreate_inv env ctr p h
  subst hp
  exact ⟨rfl, rfl, Nat.le_add_right _ _⟩

theorem claim_C2_witness :
    (⟨⟨⟨[0]⟩, ⟨[0]⟩⟩, ⟨[0]⟩, 502282880, ⟨0, 0, ⟨[0]⟩⟩, ⟨[1]⟩⟩ :
        CreateAccountParams).lamports =
      happyEnv.conn.getMinimumBalanceForRentExemption StakeProgram.space +
        LAMPORTS_PER_SOL / 2 ∧
    LAMPORTS_PER_SOL / 2 = 500000000 ∧
    happyEnv.conn.getMinimumBalanceForRentExemption StakeProgram.space ≤
      (⟨⟨⟨[0]⟩, ⟨[0]⟩⟩, ⟨[0]⟩, 502282880, ⟨0, 0, ⟨[0]⟩⟩, ⟨[1]⟩⟩ :
        CreateAccountParams).lamports :=
  claim_C2 happyEnv 0 _ (by decide)

/-- Claim C3: the withdraw stage builds its withdrawal transaction with a
lamport amount equal to the stake-account balance the connection reports,
read immediately before the instruction is built and after every event of
the deactivate stage. -/
theorem claim_C3 (env : Env) (ctr : Nat) (v : KeysWithValidator)
    (h : (withdrawStake env ctr).res = .ok v) :
    ∃ txId,
      (withdrawStake env ctr).events = (deactivateStake env ctr).events ++
        [.balanceRead v.stakeAccount.publicKey
           (env.conn.getBalance v.stakeAccount.publicKey),
         .txBuilt (.withdraw ⟨v.stakeAccount.publicKey, v.wallet.publicKey,
           v.wallet.publicKey, env.conn.getBalance v.stakeAccount.publicKey⟩),
         .txSubmitted (.withdraw ⟨v.stakeAccount.publicKey, v.wallet.publicKey,
           v.wallet.publicKey, env.conn.getBalance v.stakeAccount.publicKey⟩) txId,
         .balanceRead v.stakeAccount.publicKey
           (env.conn.getBalance v.stakeAccount.publicKey)] :=
  (withdraw_ok_shape env ctr v h).2

theorem claim_C3_witness :
    ∃ txId,
      (withdrawStake happyEnv 0).events = (deactivateStake happyEnv 0).events ++
        [.balanceRead ⟨[1]⟩ (happyEnv.conn.getBalance ⟨[1]⟩),
         .txBuilt (.withdraw ⟨⟨[1]⟩, ⟨[0]⟩, ⟨[0]⟩, happyEnv.conn.getBalance ⟨[1]⟩⟩),
         .txSubmitted (.withdraw ⟨⟨[1]⟩, ⟨[0]⟩, ⟨[0]⟩, happyEnv.conn.getBalance ⟨[1]⟩⟩) txId,
         .balanceRead ⟨[1]⟩ (happyEnv.conn.getBalance ⟨[1]⟩)] :=
  claim_C3 happyEnv 0 ⟨⟨⟨[0]⟩⟩, ⟨⟨[1]⟩⟩, ⟨[118, 49]⟩⟩ (by rfl)

/-- Claim C4: a withdraw run builds and submits the lifecycle
transactions in the fixed order create, delegate, deactivate, withdraw:
the marks of any run form an initial segment of that sequence, so no
stage is ever skipped or reordered, and a run whose result is a success
carries all four stages, each fully submitted before the next is
built. -/
theorem claim_C4 (env : Env) (ctr : Nat) :
    (∃ n, lifecycleMarks (withdrawStake env ctr).events = fullLifecycleMarks.take n) ∧
    (∀ v, (withdrawStake env ctr).res = .ok v →
      lifecycleMarks (withdrawStake env ctr).events = fullLifecycleMarks) := by
  obtain ⟨n, hn, hm, hfull⟩ := withdraw_marks_le env ctr
  refine ⟨⟨n, hm⟩, fun v hv => ?_⟩
  have h8 : n = 8 := hfull (by simp [hv, exceptOk])
  subst h8
  rw [hm]
  decide

theorem claim_C4_witness :
    lifecycleMarks (withdrawStake happyEnv 0).events = fullLifecycleMarks :=
  (claim_C4 happyEnv 0).2 ⟨⟨⟨[0]⟩⟩, ⟨⟨[1]⟩⟩, ⟨[118, 49]⟩⟩ (by rfl)

/-- Claim C5: every account the delegator scan returns has data exactly
200 bytes long whose bytes starting at offset 124 equal the queried
validator public key bytes exactly; no account of another length or with
a non-matching slice is ever returned. -/
theorem claim_C5 (conn : Connection) (i : PubkeyInput) (k : PublicKey)
    (rep : ScanReport) (a : RpcAccount)
    (hk : PublicKey.fromInput i = .ok k)
    (h : (getDelegatorsByValidator conn i).res = .ok rep)
    (ha : a ∈ rep.accounts) :
    a.data.length = 200 ∧ (a.data.drop 124).take k.bytes.length = k.bytes := by
  simp [getDelegatorsByValidator, hk] at h
  subst h
  simp [Connection.getProgramAccounts, List.mem_filter, scanFilters, matchesFilter] at ha
  exact ⟨ha.2.1, ha.2.2⟩

set_option maxRecDepth 8000 in
theorem claim_C5_witness :
    scanAcct.data.length = 200 ∧
    (scanAcct.data.drop 124).take ((⟨[7, 9]⟩ : PublicKey).bytes.length) = [7, 9] :=
  claim_C5 scanConn (.key ⟨[7, 9]⟩) ⟨[7, 9]⟩ ⟨[scanAcct], 1, some scanAcct⟩ scanAcct
    rfl (by rfl) (by decide)

/-- Claim C6: when a lifecycle stage fails, the failure is raised
unchanged to the caller stage, whose run carries exactly the failed
predecessor trace: no later stage instruction is built or submitted. -/
theorem claim_C6 (env : Env) (ctr : Nat) (e : JsError) :
    ((createStakeAccount env ctr).res = .error e →
      delegateStake env ctr = ⟨.error e, (createStakeAccount env ctr).ctr,
        (createStakeAccount env ctr).events⟩) ∧
    ((delegateStake env ctr).res = .error e →
      deactivateStake env ctr = ⟨.error e, (delegateStake env ctr).ctr,
        (delegateStake env ctr).events⟩) ∧
    ((deactivateStake env ctr).res = .error e →
      withdrawStake env ctr = ⟨.error e, (deactivateStake env ctr).ctr,
        (deactivateStake env ctr).events⟩) :=
  ⟨delegate_of_create_error env ctr e, deactivate_of_delegate_error env ctr e,
    withdraw_of_deactivate_error env ctr e⟩

theorem claim_C6_witness :
    delegateStake airdropFailEnv 0 = ⟨.error (.rpc "airdrop refused"),
      (createStakeAccount airdropFailEnv 0).ctr, (createStakeAccount airdropFailEnv 0).events⟩ ∧
    deactivateStake airdropFailEnv 0 = ⟨.error (.rpc "airdrop refused"),
      (delegateStake airdropFailEnv 0).ctr, (delegateStake airdropFailEnv 0).events⟩ ∧
    withdrawStake airdropFailEnv 0 = ⟨.error (.rpc "airdrop refused"),
      (deactivateStake airdropFailEnv 0).ctr, (deactivateStake airdropFailEnv 0).events⟩ :=
  ⟨(claim_C6 airdropFailEnv 0 (.rpc "airdrop refused")).1 (by rfl),
   (claim_C6 airdropFailEnv 0 (.rpc "airdrop refused")).2.1 (by rfl),
   (claim_C6 airdropFailEnv 0 (.rpc "airdrop refused")).2.2 (by rfl)⟩

/-- Claim C7: a delegator scan whose account query returns zero matches
reports an empty match list, a count of zero and no sample record, and
raises no error. -/
theorem claim_C7 (conn : Connection) (i : PubkeyInput) (k : PublicKey)
    (hk : PublicKey.fromInput i = .ok k)
    (h0 : conn.getProgramAccounts STAKE_PROGRAM_ID (scanFilters k) = []) :
    (getDelegatorsByValidator conn i).res = .ok ⟨[], 0, none⟩ := by
  simp [getDelegatorsByValidator, hk, h0]

theorem claim_C7_witness :
    (getDelegatorsByValidator happyConn (.key ⟨[1]⟩)).res = .ok ⟨[], 0, none⟩ :=
  claim_C7 happyConn (.key ⟨[1]⟩) ⟨[1]⟩ rfl (by rfl)

/-- Claim C8: the delegate stage checks no precondition on the validator
set; when the current list is empty after a successful creation, the run
fails with the TypeError raised by reading the votePubkey field of the
undefined first entry, right after the vote-account fetch and before any
delegate instruction is built. -/
theorem claim_C8 (env : Env) (ctr : Nat) (keys : Keys)
    (hok : (createStakeAccount env ctr).res = .ok keys)
    (hempty : env.conn.getVoteAccounts.current = []) :
    (delegateStake env ctr).res = .error (.typeErrorUndefined "votePubkey") ∧
    (delegateStake env ctr).events =
      (createStakeAccount env ctr).events ++ [.voteAccountsFetched] := by
  constructor <;> simp [delegateStake, hok, hempty]

theorem claim_C8_witness :
    (delegateStake noValidatorsEnv 0).res = .error (.typeErrorUndefined "votePubkey") ∧
    (delegateStake noValidatorsEnv 0).events =
      (createStakeAccount noValidatorsEnv 0).events ++ [.voteAccountsFetched] :=
  claim_C8 noValidatorsEnv 0 ⟨⟨⟨[0]⟩⟩, ⟨⟨[1]⟩⟩⟩ (by rfl) (by rfl)

/-- Claim C9: each stage passes the accumulated state through unchanged:
a successful withdraw returns exactly the object deactivate returned,
which is exactly the object delegate returned, and that object is the
create-stage wallet and stake account unmodified together with the
selected validator key taken from the head of the current validator
list. -/
theorem claim_C9 (env : Env) (ctr : Nat) (v : KeysWithValidator)
    (h : (withdrawStake env ctr).res = .ok v) :
    (deactivateStake env ctr).res = .ok v ∧
    (delegateStake env ctr).res = .ok v ∧
    (createStakeAccount env ctr).res = .ok ⟨v.wallet, v.stakeAccount⟩ ∧
    (∃ w, env.conn.getVoteAccounts.current.head? = some w ∧
      v.selectedValidatorPublicKey = PublicKey.fromString w.votePubkey) := by
  have hd := (withdraw_ok_shape env ctr v h).1
  have hg := (deactivate_ok_shape env ctr v hd).1
  obtain ⟨hc, w, txId, hw, hsel, -⟩ := delegate_ok_shape env ctr v hg
  exact ⟨hd, hg, hc, w, hw, hsel⟩

theorem claim_C9_witness :
    (deactivateStake happyEnv 0).res = .ok ⟨⟨⟨[0]⟩⟩, ⟨⟨[1]⟩⟩, ⟨[118, 49]⟩⟩ ∧
    (delegateStake happyEnv 0).res = .ok ⟨⟨⟨[0]⟩⟩, ⟨⟨[1]⟩⟩, ⟨[118, 49]⟩⟩ ∧
    (createStakeAccount happyEnv 0).res = .ok ⟨⟨⟨[0]⟩⟩, ⟨⟨[1]⟩⟩⟩ ∧
    (∃ w, happyEnv.conn.getVoteAccounts.current.head? = some w ∧
      (⟨[118, 49]⟩ : PublicKey) = PublicKey.fromString w.votePubkey) :=
  claim_C9 happyEnv 0 ⟨⟨⟨[0]⟩⟩, ⟨⟨[1]⟩⟩, ⟨[118, 49]⟩⟩ (by rfl)

/-- Claim C10: the standalone delegator-scan entry flow passes no
validator key, so every execution fails while constructing the public key
from the undefined argument, with an empty trace showing no account query
was issued, and the catch-all boundary of the entry flow logs that
error. -/
theorem claim_C10 (connection : Connection) :
    getDelegatorsByValidator connection .undefinedArg =
      ⟨.error .invalidPublicKeyInput, []⟩ ∧
    mainGetDelegatorsByValidator connection =
      ⟨.error .invalidPublicKeyInput, []⟩ ∧
    runMainGetDelegatorsByValidator connection = .loggedError .invalidPublicKeyInput :=
  ⟨rfl, rfl, rfl⟩

end SolanaStaking
